import Mathlib

/-!
Shallow embedding of `src/main.rs` of the natpmp-setup repository.

The program talks to a NAT-PMP gateway through the `natpmp` crate.  We model
the transport as an oracle: for every loop iteration `i`, the environment
supplies the outcome of the `send_*_request` call and of
`read_response_or_retry`.  The queries are pure functions of that oracle and
additionally return the list of observable events they perform (sends, waits,
reads, downstream-notifier writes, the inter-renewal sleep), in order.
-/

/-- Transport-level error (`natpmp::Error`): the distinguished
`NATPMP_TRYAGAIN` signal versus every other error (collapsed to a code). -/
inductive TransportError where
  | tryAgain
  | other (code : Nat)
deriving DecidableEq, Repr

/-- `natpmp::GatewayResponse`: public address and gateway epoch. -/
structure GatewayResponse where
  public_address : Nat
  epoch : Nat
deriving DecidableEq, Repr

/-- `natpmp::MappingResponse`: internal (private) port, external (public)
port, and granted lifetime.  The lifetime is a `Duration`, modelled as a
total number of nanoseconds. -/
structure MappingResponse where
  private_port : Nat
  public_port : Nat
  lifetime : Nat
deriving DecidableEq, Repr

/-- `Duration::as_secs` on a nanosecond count. -/
def as_secs (d : Nat) : Nat := d / 1000000000

/-- `natpmp::Response`: tagged union over TCP mapping, UDP mapping and
gateway (public address) responses. -/
inductive Response where
  | tcp (tr : MappingResponse)
  | udp (ur : MappingResponse)
  | gateway (gr : GatewayResponse)
deriving DecidableEq, Repr

/-- Behaviour of the transport at one loop iteration: the result of the
`send_*_request` call (`none` = `Ok(())`) and the result of
`read_response_or_retry`. -/
structure Attempt where
  sendErr : Option TransportError
  read : Except TransportError Response

/-- Failure of a single query, mirroring the `anyhow` errors produced in
`query_gateway` / `query_port`. -/
inductive QueryError where
  | sendFailed (e : TransportError)   -- send error propagated (gateway query only)
  | readFailed (e : TransportError)   -- fatal (non-TryAgain) read error
  | unexpectedResponse                -- gateway query: non-gateway response
  | exhausted                         -- backoff ceiling passed without a result
deriving DecidableEq, Repr

/-- Observable events, in program order. -/
inductive Event where
  | sendGatewayReq
  | sendMappingReq (internal external reqLifetime : Nat)
  | wait (ms : Nat)
  | readResp
  | callQueryPort (internal external : Nat) (check : Bool)
  | notify (port : Nat)               -- print_loop_info: write "pid,port"
  | sleepDur (nanos : Nat)            -- thread::sleep(mr.lifetime() / 2)
deriving DecidableEq, Repr

/-- The timeout values for which the body of
`let mut timeout = 250; while timeout <= 64000 { ...; timeout *= 2 }`
executes, starting from `t`.  The `0 < t` guard only serves termination;
it holds at every reachable value (250·2^k). -/
def loopTimeouts (t : Nat) : List Nat :=
  if h : 0 < t ∧ t ≤ 64000 then t :: loopTimeouts (t * 2) else []
termination_by 64001 - t
decreasing_by omega

theorem loopTimeouts_stop (t : Nat) (h : 64000 < t) : loopTimeouts t = [] := by
  rw [loopTimeouts]
  exact dif_neg (by omega)

theorem loopTimeouts_go (t : Nat) (h1 : 0 < t) (h2 : t ≤ 64000) :
    loopTimeouts t = t :: loopTimeouts (t * 2) := by
  rw [loopTimeouts]
  exact dif_pos ⟨h1, h2⟩

theorem loopTimeouts_250 :
    loopTimeouts 250 =
      [250, 500, 1000, 2000, 4000, 8000, 16000, 32000, 64000] := by
  rw [loopTimeouts_go 250 (by norm_num) (by norm_num)]
  rw [loopTimeouts_go 500 (by norm_num) (by norm_num)]
  rw [loopTimeouts_go 1000 (by norm_num) (by norm_num)]
  rw [loopTimeouts_go 2000 (by norm_num) (by norm_num)]
  rw [loopTimeouts_go 4000 (by norm_num) (by norm_num)]
  rw [loopTimeouts_go 8000 (by norm_num) (by norm_num)]
  rw [loopTimeouts_go 16000 (by norm_num) (by norm_num)]
  rw [loopTimeouts_go 32000 (by norm_num) (by norm_num)]
  rw [loopTimeouts_go 64000 (by norm_num) (by norm_num)]
  rw [loopTimeouts_stop 128000 (by norm_num)]

/-- `Result::or` from Rust: note that at a call site `a.or(b)` the argument
`b` is evaluated eagerly, before `or` runs. -/
def resultOr (a b : Except QueryError MappingResponse) :
    Except QueryError MappingResponse :=
  match a with
  | .ok v => .ok v
  | .error _ => b

/-- Body of `query_gateway` (src/main.rs lines 59-93), one list element per
iteration of the `while timeout <= 64000` loop; `i` numbers the iterations so
the oracle can be consulted.  The send error is propagated by `?`
(line 64); a `NATPMP_TRYAGAIN` read keeps looping; any other read error is
returned; a non-gateway response fails with `bail!("Expecting a gateway
response")`; falling off the loop fails with `bail!("Querying gateway
failed!")`. -/
def query_gateway_list (env : Nat → Attempt) :
    List Nat → Nat → Except QueryError GatewayResponse × List Event
  | [], _ => (.error .exhausted, [])
  | t :: ts, i =>
    match (env i).sendErr with
    | some e => (.error (.sendFailed e), [.sendGatewayReq])
    | none =>
      match (env i).read with
      | .error .tryAgain =>
        let q := query_gateway_list env ts (i + 1)
        (q.1, [.sendGatewayReq, .wait t, .readResp] ++ q.2)
      | .error e => (.error (.readFailed e), [.sendGatewayReq, .wait t, .readResp])
      | .ok (.gateway gr) => (.ok gr, [.sendGatewayReq, .wait t, .readResp])
      | .ok _ => (.error .unexpectedResponse, [.sendGatewayReq, .wait t, .readResp])

/-- `query_gateway`: run the loop over the timeout schedule 250, 500, ...,
64000. -/
def query_gateway (env : Nat → Attempt) :
    Except QueryError GatewayResponse × List Event :=
  query_gateway_list env (loopTimeouts 250) 0

/-- Body of `query_port` (src/main.rs lines 101-168), one list element per
iteration of the `while timeout <= 64000` loop.  Faithfulness notes:
* the result of `send_port_mapping_request` is DISCARDED by the source
  (`let _ = ... .map_err(...)`, lines 110-111), so `sendErr` is ignored and
  the iteration proceeds to sleep and read regardless;
* a `NATPMP_TRYAGAIN` read performs an ADDITIONAL
  `thread::sleep(Duration::from_millis(timeout))` (line 121) before looping;
* a TCP response is returned when `!check || (private == internal &&
  public == external && lifetime.as_secs() > 0)` (lines 136-140), written
  here with the propositional counterparts of `||`/`&&`;
* UDP and gateway responses are only logged and the loop continues;
* falling off the loop fails with `bail!("Mapping failed after multiple
  attempts.")`. -/
def query_port_list (env : Nat → Attempt) (internal external : Nat)
    (check : Bool) :
    List Nat → Nat → Except QueryError MappingResponse × List Event
  | [], _ => (.error .exhausted, [])
  | t :: ts, i =>
    match (env i).read with
    | .error .tryAgain =>
      let q := query_port_list env internal external check ts (i + 1)
      (q.1, [.sendMappingReq internal external 360, .wait t, .readResp, .wait t] ++ q.2)
    | .error e =>
      (.error (.readFailed e), [.sendMappingReq internal external 360, .wait t, .readResp])
    | .ok (.tcp tr) =>
      if check = false ∨ (tr.private_port = internal ∧ tr.public_port = external ∧
          0 < as_secs tr.lifetime) then
        (.ok tr, [.sendMappingReq internal external 360, .wait t, .readResp])
      else
        let q := query_port_list env internal external check ts (i + 1)
        (q.1, [.sendMappingReq internal external 360, .wait t, .readResp] ++ q.2)
    | .ok (.udp _) =>
      let q := query_port_list env internal external check ts (i + 1)
      (q.1, [.sendMappingReq internal external 360, .wait t, .readResp] ++ q.2)
    | .ok (.gateway _) =>
      let q := query_port_list env internal external check ts (i + 1)
      (q.1, [.sendMappingReq internal external 360, .wait t, .readResp] ++ q.2)

/-- `query_port`: run the loop over the timeout schedule 250, 500, ...,
64000.  The `callQueryPort` event records the invocation and its
arguments. -/
def query_port (env : Nat → Attempt) (internal external : Nat) (check : Bool) :
    Except QueryError MappingResponse × List Event :=
  ((query_port_list env internal external check (loopTimeouts 250) 0).1,
   .callQueryPort internal external check ::
     (query_port_list env internal external check (loopTimeouts 250) 0).2)

/-- `query_available_port` (src/main.rs lines 96-98). -/
def query_available_port (env : Nat → Attempt) :
    Except QueryError MappingResponse × List Event :=
  query_port env 0 0 false

/-- The body of the infinite loop in `main` (src/main.rs lines 32-48), after
the two queries have produced their results and event traces:
sleep `mr.lifetime() / 2`, combine the two query results with `Result::or`
(the second query was already evaluated eagerly, as the argument of `.or`),
`expect` on the combined result, write `"pid,port"` iff the public port
changed, and hand the new mapping to the next cycle. -/
def cycleAfterQueries (mr : MappingResponse)
    (q1 q2 : Except QueryError MappingResponse × List Event) :
    Except QueryError MappingResponse × List Event :=
  match resultOr q1.1 q2.1 with
  | .error e =>
    -- `.expect("Every renewal method failed!")` aborts the process
    (.error e, Event.sleepDur (mr.lifetime / 2) :: (q1.2 ++ q2.2))
  | .ok mr2 =>
    if mr.public_port ≠ mr2.public_port then
      (.ok mr2, (Event.sleepDur (mr.lifetime / 2) :: (q1.2 ++ q2.2)) ++
        [Event.notify mr2.public_port])
    else
      (.ok mr2, Event.sleepDur (mr.lifetime / 2) :: (q1.2 ++ q2.2))

/-- One cycle of the `main` loop with the renewal oracle `envR` and the
fresh-acquisition oracle `envF`.  Rust evaluates the receiver of `.or`
first (the verify-mode renewal query) and then its argument (the
fresh-acquisition query) unconditionally: `Result::or` takes a value, not a
closure. -/
def mainCycle (envR envF : Nat → Attempt) (mr : MappingResponse) :
    Except QueryError MappingResponse × List Event :=
  cycleAfterQueries mr
    (query_port envR mr.private_port mr.public_port true)
    (query_available_port envF)

/-- The startup sequence of `main` (src/main.rs lines 24-29) after the two
queries have produced their results: `expect` on the gateway query, then
`expect` on the fresh-acquisition query, then the initial
`print_loop_info` write.  On a gateway-query failure the mapping query's
events do not occur. -/
def startupAfterQueries (g : Except QueryError GatewayResponse × List Event)
    (q : Except QueryError MappingResponse × List Event) :
    Except QueryError MappingResponse × List Event :=
  match g.1 with
  | .error e => (.error e, g.2)
  | .ok _ =>
    match q.1 with
    | .error e => (.error e, g.2 ++ q.2)
    | .ok mr => (.ok mr, g.2 ++ q.2 ++ [Event.notify mr.public_port])

/-- Startup of `main`: gateway query, fresh acquisition, initial notify. -/
def mainStartup (envG envF : Nat → Attempt) :
    Except QueryError MappingResponse × List Event :=
  startupAfterQueries (query_gateway envG) (query_available_port envF)

/-- Number of `read_response_or_retry` invocations in a trace (one per loop
iteration that reaches the read). -/
def readCount (evs : List Event) : Nat :=
  evs.countP fun e => match e with | Event.readResp => true | _ => false

/-- Number of `send_port_mapping_request` invocations in a trace. -/
def sendMapCount (evs : List Event) : Nat :=
  evs.countP fun e => match e with | Event.sendMappingReq _ _ _ => true | _ => false

/-- The waits performed by a trace, in order, in milliseconds. -/
def waits (evs : List Event) : List Nat :=
  evs.filterMap fun e => match e with | Event.wait t => some t | _ => none

/-- The ports written by `print_loop_info` in a trace, in order. -/
def notifyPorts (evs : List Event) : List Nat :=
  evs.filterMap fun e => match e with | Event.notify p => some p | _ => none

theorem query_gateway_eval (env : Nat → Attempt) :
    query_gateway env =
      query_gateway_list env [250, 500, 1000, 2000, 4000, 8000, 16000, 32000, 64000] 0 := by
  unfold query_gateway
  rw [loopTimeouts_250]

theorem query_port_eval (env : Nat → Attempt) (internal external : Nat)
    (check : Bool) :
    query_port env internal external check =
      ((query_port_list env internal external check
          [250, 500, 1000, 2000, 4000, 8000, 16000, 32000, 64000] 0).1,
       Event.callQueryPort internal external check ::
         (query_port_list env internal external check
           [250, 500, 1000, 2000, 4000, 8000, 16000, 32000, 64000] 0).2) := by
  unfold query_port
  rw [loopTimeouts_250]

theorem qpl_nil (env : Nat → Attempt) (a b : Nat) (c : Bool) (i : Nat) :
    query_port_list env a b c [] i = (Except.error QueryError.exhausted, []) := rfl

theorem qpl_tryAgain (env : Nat → Attempt) (a b : Nat) (c : Bool) (t : Nat)
    (ts : List Nat) (i : Nat)
    (h : (env i).read = Except.error TransportError.tryAgain) :
    query_port_list env a b c (t :: ts) i =
      ((query_port_list env a b c ts (i + 1)).1,
       [Event.sendMappingReq a b 360, Event.wait t, Event.readResp, Event.wait t] ++
         (query_port_list env a b c ts (i + 1)).2) := by
  simp only [query_port_list, h]

theorem qpl_fatal (env : Nat → Attempt) (a b : Nat) (c : Bool) (t : Nat)
    (ts : List Nat) (i code : Nat)
    (h : (env i).read = Except.error (TransportError.other code)) :
    query_port_list env a b c (t :: ts) i =
      (Except.error (QueryError.readFailed (TransportError.other code)),
       [Event.sendMappingReq a b 360, Event.wait t, Event.readResp]) := by
  simp only [query_port_list, h]

theorem qpl_tcp_accept (env : Nat → Attempt) (a b : Nat) (c : Bool) (t : Nat)
    (ts : List Nat) (i : Nat) (tr : MappingResponse)
    (h : (env i).read = Except.ok (Response.tcp tr))
    (hc : c = false ∨ (tr.private_port = a ∧ tr.public_port = b ∧
      0 < as_secs tr.lifetime)) :
    query_port_list env a b c (t :: ts) i =
      (Except.ok tr, [Event.sendMappingReq a b 360, Event.wait t, Event.readResp]) := by
  simp only [query_port_list, h, if_pos hc]

theorem qpl_tcp_reject (env : Nat → Attempt) (a b : Nat) (c : Bool) (t : Nat)
    (ts : List Nat) (i : Nat) (tr : MappingResponse)
    (h : (env i).read = Except.ok (Response.tcp tr))
    (hc : ¬(c = false ∨ (tr.private_port = a ∧ tr.public_port = b ∧
      0 < as_secs tr.lifetime))) :
    query_port_list env a b c (t :: ts) i =
      ((query_port_list env a b c ts (i + 1)).1,
       [Event.sendMappingReq a b 360, Event.wait t, Event.readResp] ++
         (query_port_list env a b c ts (i + 1)).2) := by
  simp only [query_port_list, h, if_neg hc]

theorem qpl_udp (env : Nat → Attempt) (a b : Nat) (c : Bool) (t : Nat)
    (ts : List Nat) (i : Nat) (ur : MappingResponse)
    (h : (env i).read = Except.ok (Response.udp ur)) :
    query_port_list env a b c (t :: ts) i =
      ((query_port_list env a b c ts (i + 1)).1,
       [Event.sendMappingReq a b 360, Event.wait t, Event.readResp] ++
         (query_port_list env a b c ts (i + 1)).2) := by
  simp only [query_port_list, h]

theorem qpl_gw (env : Nat → Attempt) (a b : Nat) (c : Bool) (t : Nat)
    (ts : List Nat) (i : Nat) (gr : GatewayResponse)
    (h : (env i).read = Except.ok (Response.gateway gr)) :
    query_port_list env a b c (t :: ts) i =
      ((query_port_list env a b c ts (i + 1)).1,
       [Event.sendMappingReq a b 360, Event.wait t, Event.readResp] ++
         (query_port_list env a b c ts (i + 1)).2) := by
  simp only [query_port_list, h]

theorem qgl_nil (env : Nat → Attempt) (i : Nat) :
    query_gateway_list env [] i = (Except.error QueryError.exhausted, []) := rfl

theorem qgl_sendFail (env : Nat → Attempt) (t : Nat) (ts : List Nat) (i : Nat)
    (e : TransportError) (h : (env i).sendErr = some e) :
    query_gateway_list env (t :: ts) i =
      (Except.error (QueryError.sendFailed e), [Event.sendGatewayReq]) := by
  simp only [query_gateway_list, h]

theorem qgl_tryAgain (env : Nat → Attempt) (t : Nat) (ts : List Nat) (i : Nat)
    (hs : (env i).sendErr = none)
    (h : (env i).read = Except.error TransportError.tryAgain) :
    query_gateway_list env (t :: ts) i =
      ((query_gateway_list env ts (i + 1)).1,
       [Event.sendGatewayReq, Event.wait t, Event.readResp] ++
         (query_gateway_list env ts (i + 1)).2) := by
  simp only [query_gateway_list, hs, h]

theorem qgl_fatal (env : Nat → Attempt) (t : Nat) (ts : List Nat) (i code : Nat)
    (hs : (env i).sendErr = none)
    (h : (env i).read = Except.error (TransportError.other code)) :
    query_gateway_list env (t :: ts) i =
      (Except.error (QueryError.readFailed (TransportError.other code)),
       [Event.sendGatewayReq, Event.wait t, Event.readResp]) := by
  simp only [query_gateway_list, hs, h]

theorem qgl_ok (env : Nat → Attempt) (t : Nat) (ts : List Nat) (i : Nat)
    (gr : GatewayResponse) (hs : (env i).sendErr = none)
    (h : (env i).read = Except.ok (Response.gateway gr)) :
    query_gateway_list env (t :: ts) i =
      (Except.ok gr, [Event.sendGatewayReq, Event.wait t, Event.readResp]) := by
  simp only [query_gateway_list, hs, h]

theorem qgl_tcp (env : Nat → Attempt) (t : Nat) (ts : List Nat) (i : Nat)
    (tr : MappingResponse) (hs : (env i).sendErr = none)
    (h : (env i).read = Except.ok (Response.tcp tr)) :
    query_gateway_list env (t :: ts) i =
      (Except.error QueryError.unexpectedResponse,
       [Event.sendGatewayReq, Event.wait t, Event.readResp]) := by
  simp only [query_gateway_list, hs, h]

theorem qgl_udp (env : Nat → Attempt) (t : Nat) (ts : List Nat) (i : Nat)
    (ur : MappingResponse) (hs : (env i).sendErr = none)
    (h : (env i).read = Except.ok (Response.udp ur)) :
    query_gateway_list env (t :: ts) i =
      (Except.error QueryError.unexpectedResponse,
       [Event.sendGatewayReq, Event.wait t, Event.readResp]) := by
  simp only [query_gateway_list, hs, h]

theorem readCount_append (xs ys : List Event) :
    readCount (xs ++ ys) = readCount xs + readCount ys := by
  simp [readCount, List.countP_append]

theorem waits_append (xs ys : List Event) :
    waits (xs ++ ys) = waits xs ++ waits ys := by
  simp [waits]

theorem notifyPorts_append (xs ys : List Event) :
    notifyPorts (xs ++ ys) = notifyPorts xs ++ notifyPorts ys := by
  simp [notifyPorts]

theorem query_port_list_check_sound (env : Nat → Attempt) (a b : Nat) :
    ∀ (ts : List Nat) (i : Nat) (tr : MappingResponse),
      (query_port_list env a b true ts i).1 = Except.ok tr →
      tr.private_port = a ∧ tr.public_port = b ∧ 0 < as_secs tr.lifetime := by
  intro ts
  induction ts with
  | nil => intro i tr h; rw [qpl_nil] at h; exact absurd h (by simp)
  | cons t ts ih =>
    intro i tr h
    cases hr : (env i).read with
    | error e =>
      cases e with
      | tryAgain =>
        rw [qpl_tryAgain env a b true t ts i hr] at h
        exact ih (i + 1) tr h
      | other code =>
        rw [qpl_fatal env a b true t ts i code hr] at h
        exact absurd h (by simp)
    | ok r =>
      cases r with
      | tcp tr' =>
        by_cases hc : (true : Bool) = false ∨ (tr'.private_port = a ∧
            tr'.public_port = b ∧ 0 < as_secs tr'.lifetime)
        · rw [qpl_tcp_accept env a b true t ts i tr' hr hc] at h
          simp only [Except.ok.injEq] at h
          subst h
          rcases hc with hc | hc
          · exact absurd hc (by simp)
          · exact hc
        · rw [qpl_tcp_reject env a b true t ts i tr' hr hc] at h
          exact ih (i + 1) tr h
      | udp ur =>
        rw [qpl_udp env a b true t ts i ur hr] at h
        exact ih (i + 1) tr h
      | gateway gr =>
        rw [qpl_gw env a b true t ts i gr hr] at h
        exact ih (i + 1) tr h

theorem query_port_list_ok_from_tcp (env : Nat → Attempt) (a b : Nat)
    (c : Bool) :
    ∀ (ts : List Nat) (i : Nat) (tr : MappingResponse),
      (query_port_list env a b c ts i).1 = Except.ok tr →
      ∃ j, (env j).read = Except.ok (Response.tcp tr) := by
  intro ts
  induction ts with
  | nil => intro i tr h; rw [qpl_nil] at h; exact absurd h (by simp)
  | cons t ts ih =>
    intro i tr h
    cases hr : (env i).read with
    | error e =>
      cases e with
      | tryAgain =>
        rw [qpl_tryAgain env a b c t ts i hr] at h
        exact ih (i + 1) tr h
      | other code =>
        rw [qpl_fatal env a b c t ts i code hr] at h
        exact absurd h (by simp)
    | ok r =>
      cases r with
      | tcp tr' =>
        by_cases hc : c = false ∨ (tr'.private_port = a ∧
            tr'.public_port = b ∧ 0 < as_secs tr'.lifetime)
        · rw [qpl_tcp_accept env a b c t ts i tr' hr hc] at h
          simp only [Except.ok.injEq] at h
          subst h
          exact ⟨i, hr⟩
        · rw [qpl_tcp_reject env a b c t ts i tr' hr hc] at h
          exact ih (i + 1) tr h
      | udp ur =>
        rw [qpl_udp env a b c t ts i ur hr] at h
        exact ih (i + 1) tr h
      | gateway gr =>
        rw [qpl_gw env a b c t ts i gr hr] at h
        exact ih (i + 1) tr h

theorem readCount_query_port_list_le (env : Nat → Attempt) (a b : Nat)
    (c : Bool) :
    ∀ (ts : List Nat) (i : Nat),
      readCount (query_port_list env a b c ts i).2 ≤ ts.length := by
  intro ts
  induction ts with
  | nil => intro i; rw [qpl_nil]; simp [readCount]
  | cons t ts ih =>
    intro i
    have hlen : (t :: ts).length = ts.length + 1 := rfl
    cases hr : (env i).read with
    | error e =>
      cases e with
      | tryAgain =>
        rw [qpl_tryAgain env a b c t ts i hr]
        simp only [readCount_append]
        have := ih (i + 1)
        have hb : readCount [Event.sendMappingReq a b 360, Event.wait t,
            Event.readResp, Event.wait t] = 1 := by simp [readCount]
        omega
      | other code =>
        rw [qpl_fatal env a b c t ts i code hr]
        have hb : readCount [Event.sendMappingReq a b 360, Event.wait t,
            Event.readResp] = 1 := by simp [readCount]
        show readCount [Event.sendMappingReq a b 360, Event.wait t,
            Event.readResp] ≤ (t :: ts).length
        omega
    | ok r =>
      cases r with
      | tcp tr' =>
        by_cases hc : c = false ∨ (tr'.private_port = a ∧
            tr'.public_port = b ∧ 0 < as_secs tr'.lifetime)
        · rw [qpl_tcp_accept env a b c t ts i tr' hr hc]
          have hb : readCount [Event.sendMappingReq a b 360, Event.wait t,
              Event.readResp] = 1 := by simp [readCount]
          show readCount [Event.sendMappingReq a b 360, Event.wait t,
              Event.readResp] ≤ (t :: ts).length
          omega
        · rw [qpl_tcp_reject env a b c t ts i tr' hr hc]
          simp only [readCount_append]
          have := ih (i + 1)
          have hb : readCount [Event.sendMappingReq a b 360, Event.wait t,
              Event.readResp] = 1 := by simp [readCount]
          omega
      | udp ur =>
        rw [qpl_udp env a b c t ts i ur hr]
        simp only [readCount_append]
        have := ih (i + 1)
        have hb : readCount [Event.sendMappingReq a b 360, Event.wait t,
            Event.readResp] = 1 := by simp [readCount]
        omega
      | gateway gr =>
        rw [qpl_gw env a b c t ts i gr hr]
        simp only [readCount_append]
        have := ih (i + 1)
        have hb : readCount [Event.sendMappingReq a b 360, Event.wait t,
            Event.readResp] = 1 := by simp [readCount]
        omega

theorem readCount_query_gateway_list_le (env : Nat → Attempt) :
    ∀ (ts : List Nat) (i : Nat),
      readCount (query_gateway_list env ts i).2 ≤ ts.length := by
  intro ts
  induction ts with
  | nil => intro i; rw [qgl_nil]; simp [readCount]
  | cons t ts ih =>
    intro i
    have hlen : (t :: ts).length = ts.length + 1 := rfl
    have hb3 : readCount [Event.sendGatewayReq, Event.wait t,
        Event.readResp] = 1 := by simp [readCount]
    cases hs : (env i).sendErr with
    | some e =>
      rw [qgl_sendFail env t ts i e hs]
      show readCount [Event.sendGatewayReq] ≤ (t :: ts).length
      have : readCount [Event.sendGatewayReq] = 0 := by simp [readCount]
      omega
    | none =>
      cases hr : (env i).read with
      | error e =>
        cases e with
        | tryAgain =>
          rw [qgl_tryAgain env t ts i hs hr]
          simp only [readCount_append]
          have := ih (i + 1)
          omega
        | other code =>
          rw [qgl_fatal env t ts i code hs hr]
          show readCount [Event.sendGatewayReq, Event.wait t,
            Event.readResp] ≤ (t :: ts).length
          omega
      | ok r =>
        cases r with
        | tcp tr =>
          rw [qgl_tcp env t ts i tr hs hr]
          show readCount [Event.sendGatewayReq, Event.wait t,
            Event.readResp] ≤ (t :: ts).length
          omega
        | udp ur =>
          rw [qgl_udp env t ts i ur hs hr]
          show readCount [Event.sendGatewayReq, Event.wait t,
            Event.readResp] ≤ (t :: ts).length
          omega
        | gateway gr =>
          rw [qgl_ok env t ts i gr hs hr]
          show readCount [Event.sendGatewayReq, Event.wait t,
            Event.readResp] ≤ (t :: ts).length
          omega

theorem query_port_list_allTryAgain (env : Nat → Attempt) (a b : Nat)
    (c : Bool) (hta : ∀ j, (env j).read = Except.error TransportError.tryAgain) :
    ∀ (ts : List Nat) (i : Nat),
      (query_port_list env a b c ts i).1 = Except.error QueryError.exhausted := by
  intro ts
  induction ts with
  | nil => intro i; rw [qpl_nil]
  | cons t ts ih =>
    intro i
    rw [qpl_tryAgain env a b c t ts i (hta i)]
    exact ih (i + 1)

theorem query_gateway_list_allTryAgain (env : Nat → Attempt)
    (hsend : ∀ j, (env j).sendErr = none)
    (hta : ∀ j, (env j).read = Except.error TransportError.tryAgain) :
    ∀ (ts : List Nat) (i : Nat),
      (query_gateway_list env ts i).1 = Except.error QueryError.exhausted := by
  intro ts
  induction ts with
  | nil => intro i; rw [qgl_nil]
  | cons t ts ih =>
    intro i
    rw [qgl_tryAgain env t ts i (hsend i) (hta i)]
    exact ih (i + 1)

theorem notifyPorts_query_port_list (env : Nat → Attempt) (a b : Nat)
    (c : Bool) :
    ∀ (ts : List Nat) (i : Nat),
      notifyPorts (query_port_list env a b c ts i).2 = [] := by
  intro ts
  induction ts with
  | nil => intro i; rw [qpl_nil]; simp [notifyPorts]
  | cons t ts ih =>
    intro i
    cases hr : (env i).read with
    | error e =>
      cases e with
      | tryAgain =>
        rw [qpl_tryAgain env a b c t ts i hr]
        simp only [notifyPorts_append, ih (i + 1)]
        simp [notifyPorts]
      | other code =>
        rw [qpl_fatal env a b c t ts i code hr]
        show notifyPorts [Event.sendMappingReq a b 360, Event.wait t,
          Event.readResp] = []
        simp [notifyPorts]
    | ok r =>
      cases r with
      | tcp tr' =>
        by_cases hc : c = false ∨ (tr'.private_port = a ∧
            tr'.public_port = b ∧ 0 < as_secs tr'.lifetime)
        · rw [qpl_tcp_accept env a b c t ts i tr' hr hc]
          show notifyPorts [Event.sendMappingReq a b 360, Event.wait t,
            Event.readResp] = []
          simp [notifyPorts]
        · rw [qpl_tcp_reject env a b c t ts i tr' hr hc]
          simp only [notifyPorts_append, ih (i + 1)]
          simp [notifyPorts]
      | udp ur =>
        rw [qpl_udp env a b c t ts i ur hr]
        simp only [notifyPorts_append, ih (i + 1)]
        simp [notifyPorts]
      | gateway gr =>
        rw [qpl_gw env a b c t ts i gr hr]
        simp only [notifyPorts_append, ih (i + 1)]
        simp [notifyPorts]

theorem notifyPorts_query_gateway_list (env : Nat → Attempt) :
    ∀ (ts : List Nat) (i : Nat),
      notifyPorts (query_gateway_list env ts i).2 = [] := by
  intro ts
  induction ts with
  | nil => intro i; rw [qgl_nil]; simp [notifyPorts]
  | cons t ts ih =>
    intro i
    cases hs : (env i).sendErr with
    | some e =>
      rw [qgl_sendFail env t ts i e hs]
      show notifyPorts [Event.sendGatewayReq] = []
      simp [notifyPorts]
    | none =>
      cases hr : (env i).read with
      | error e =>
        cases e with
        | tryAgain =>
          rw [qgl_tryAgain env t ts i hs hr]
          simp only [notifyPorts_append, ih (i + 1)]
          simp [notifyPorts]
        | other code =>
          rw [qgl_fatal env t ts i code hs hr]
          show notifyPorts [Event.sendGatewayReq, Event.wait t,
            Event.readResp] = []
          simp [notifyPorts]
      | ok r =>
        cases r with
        | tcp tr =>
          rw [qgl_tcp env t ts i tr hs hr]
          show notifyPorts [Event.sendGatewayReq, Event.wait t,
            Event.readResp] = []
          simp [notifyPorts]
        | udp ur =>
          rw [qgl_udp env t ts i ur hs hr]
          show notifyPorts [Event.sendGatewayReq, Event.wait t,
            Event.readResp] = []
          simp [notifyPorts]
        | gateway gr =>
          rw [qgl_ok env t ts i gr hs hr]
          show notifyPorts [Event.sendGatewayReq, Event.wait t,
            Event.readResp] = []
          simp [notifyPorts]

theorem waits_query_gateway_list (env : Nat → Attempt) :
    ∀ (ts : List Nat) (i : Nat),
      ∃ rest, waits (query_gateway_list env ts i).2 ++ rest = ts := by
  intro ts
  induction ts with
  | nil => intro i; rw [qgl_nil]; exact ⟨[], rfl⟩
  | cons t ts ih =>
    intro i
    cases hs : (env i).sendErr with
    | some e =>
      rw [qgl_sendFail env t ts i e hs]
      refine ⟨t :: ts, ?_⟩
      show waits [Event.sendGatewayReq] ++ (t :: ts) = t :: ts
      simp [waits]
    | none =>
      cases hr : (env i).read with
      | error e =>
        cases e with
        | tryAgain =>
          rw [qgl_tryAgain env t ts i hs hr]
          obtain ⟨rest, hrest⟩ := ih (i + 1)
          refine ⟨rest, ?_⟩
          show waits ([Event.sendGatewayReq, Event.wait t, Event.readResp] ++
            (query_gateway_list env ts (i + 1)).2) ++ rest = t :: ts
          rw [waits_append]
          show ([t] ++ waits (query_gateway_list env ts (i + 1)).2) ++ rest = t :: ts
          simp only [List.cons_append, List.nil_append]
          rw [hrest]
        | other code =>
          rw [qgl_fatal env t ts i code hs hr]
          refine ⟨ts, ?_⟩
          show waits [Event.sendGatewayReq, Event.wait t,
            Event.readResp] ++ ts = t :: ts
          simp [waits]
      | ok r =>
        cases r with
        | tcp tr =>
          rw [qgl_tcp env t ts i tr hs hr]
          refine ⟨ts, ?_⟩
          show waits [Event.sendGatewayReq, Event.wait t,
            Event.readResp] ++ ts = t :: ts
          simp [waits]
        | udp ur =>
          rw [qgl_udp env t ts i ur hs hr]
          refine ⟨ts, ?_⟩
          show waits [Event.sendGatewayReq, Event.wait t,
            Event.readResp] ++ ts = t :: ts
          simp [waits]
        | gateway gr =>
          rw [qgl_ok env t ts i gr hs hr]
          refine ⟨ts, ?_⟩
          show waits [Event.sendGatewayReq, Event.wait t,
            Event.readResp] ++ ts = t :: ts
          simp [waits]

theorem query_port_list_no_tryAgain_failure (env : Nat → Attempt) (a b : Nat)
    (c : Bool) :
    ∀ (ts : List Nat) (i : Nat),
      (query_port_list env a b c ts i).1 ≠
        Except.error (QueryError.readFailed TransportError.tryAgain) := by
  intro ts
  induction ts with
  | nil => intro i; rw [qpl_nil]; simp
  | cons t ts ih =>
    intro i
    cases hr : (env i).read with
    | error e =>
      cases e with
      | tryAgain =>
        rw [qpl_tryAgain env a b c t ts i hr]
        exact ih (i + 1)
      | other code =>
        rw [qpl_fatal env a b c t ts i code hr]
        simp
    | ok r =>
      cases r with
      | tcp tr' =>
        by_cases hc : c = false ∨ (tr'.private_port = a ∧
            tr'.public_port = b ∧ 0 < as_secs tr'.lifetime)
        · rw [qpl_tcp_accept env a b c t ts i tr' hr hc]; simp
        · rw [qpl_tcp_reject env a b c t ts i tr' hr hc]; exact ih (i + 1)
      | udp ur => rw [qpl_udp env a b c t ts i ur hr]; exact ih (i + 1)
      | gateway gr => rw [qpl_gw env a b c t ts i gr hr]; exact ih (i + 1)

theorem query_gateway_list_no_tryAgain_failure (env : Nat → Attempt) :
    ∀ (ts : List Nat) (i : Nat),
      (query_gateway_list env ts i).1 ≠
        Except.error (QueryError.readFailed TransportError.tryAgain) := by
  intro ts
  induction ts with
  | nil => intro i; rw [qgl_nil]; simp
  | cons t ts ih =>
    intro i
    cases hs : (env i).sendErr with
    | some e => rw [qgl_sendFail env t ts i e hs]; simp
    | none =>
      cases hr : (env i).read with
      | error e =>
        cases e with
        | tryAgain => rw [qgl_tryAgain env t ts i hs hr]; exact ih (i + 1)
        | other code => rw [qgl_fatal env t ts i code hs hr]; simp
      | ok r =>
        cases r with
        | tcp tr => rw [qgl_tcp env t ts i tr hs hr]; simp
        | udp ur => rw [qgl_udp env t ts i ur hs hr]; simp
        | gateway gr => rw [qgl_ok env t ts i gr hs hr]; simp

theorem query_port_list_take3 (env : Nat → Attempt) (a b : Nat) (c : Bool)
    (t : Nat) (ts : List Nat) (i : Nat) :
    (query_port_list env a b c (t :: ts) i).2.take 3 =
      [Event.sendMappingReq a b 360, Event.wait t, Event.readResp] := by
  cases hr : (env i).read with
  | error e =>
    cases e with
    | tryAgain => rw [qpl_tryAgain env a b c t ts i hr]; simp
    | other code => rw [qpl_fatal env a b c t ts i code hr]; rfl
  | ok r =>
    cases r with
    | tcp tr' =>
      by_cases hc : c = false ∨ (tr'.private_port = a ∧
          tr'.public_port = b ∧ 0 < as_secs tr'.lifetime)
      · rw [qpl_tcp_accept env a b c t ts i tr' hr hc]; rfl
      · rw [qpl_tcp_reject env a b c t ts i tr' hr hc]; simp
    | udp ur => rw [qpl_udp env a b c t ts i ur hr]; simp
    | gateway gr => rw [qpl_gw env a b c t ts i gr hr]; simp

theorem readCount_cons_call (a b : Nat) (c : Bool) (l : List Event) :
    readCount (Event.callQueryPort a b c :: l) = readCount l := by
  simp [readCount, List.countP_cons]

theorem readCount_blkMap (a b t : Nat) :
    readCount [Event.sendMappingReq a b 360, Event.wait t, Event.readResp] = 1 := by
  simp [readCount]

theorem notifyPorts_cons_sleep (n : Nat) (l : List Event) :
    notifyPorts (Event.sleepDur n :: l) = notifyPorts l := rfl

theorem notifyPorts_single_notify (p : Nat) : notifyPorts [Event.notify p] = [p] := rfl

theorem notifyPorts_query_port (env : Nat → Attempt) (a b : Nat) (c : Bool) :
    notifyPorts (query_port env a b c).2 = [] := by
  show notifyPorts (Event.callQueryPort a b c ::
    (query_port_list env a b c (loopTimeouts 250) 0).2) = []
  show notifyPorts (query_port_list env a b c (loopTimeouts 250) 0).2 = []
  exact notifyPorts_query_port_list env a b c (loopTimeouts 250) 0

theorem notifyPorts_query_available_port (env : Nat → Attempt) :
    notifyPorts (query_available_port env).2 = [] :=
  notifyPorts_query_port env 0 0 false

theorem notifyPorts_query_gateway (env : Nat → Attempt) :
    notifyPorts (query_gateway env).2 = [] :=
  notifyPorts_query_gateway_list env (loopTimeouts 250) 0

/-- A held mapping: internal 5000, external 40000, lifetime 360 s. -/
def mrHeld : MappingResponse := ⟨5000, 40000, 360000000000⟩

/-- A mapping with different ports. -/
def mrOther : MappingResponse := ⟨5001, 40001, 360000000000⟩

/-- A renewal outcome with a changed external port (scenario 4). -/
def mrNew : MappingResponse := ⟨5000, 40005, 360000000000⟩

/-- A degenerate mapping response: odd ports, zero lifetime. -/
def mrZero : MappingResponse := ⟨7, 9, 0⟩

/-- A gateway (public address) response. -/
def grOk : GatewayResponse := ⟨3232235521, 11⟩

/-- Transport that always answers with the given TCP mapping response. -/
def envTcp (tr : MappingResponse) : Nat → Attempt :=
  fun _ => ⟨none, Except.ok (Response.tcp tr)⟩

/-- Transport that always signals `NATPMP_TRYAGAIN`. -/
def envAllTryAgain : Nat → Attempt :=
  fun _ => ⟨none, Except.error TransportError.tryAgain⟩

/-- Transport that always fails reads with a fatal (non-TryAgain) error. -/
def envFatal : Nat → Attempt :=
  fun _ => ⟨none, Except.error (TransportError.other 3)⟩

/-- Transport for end-to-end scenario 2: the first two reads signal
`TryAgain`, the third returns the matching TCP mapping. -/
def envScenario2 : Nat → Attempt :=
  fun i => if i < 2 then ⟨none, Except.error TransportError.tryAgain⟩
           else ⟨none, Except.ok (Response.tcp mrHeld)⟩

/-- Transport whose `send` calls fail with a fatal error while reads would
succeed with a matching TCP mapping. -/
def envSendFail : Nat → Attempt :=
  fun _ => ⟨some (TransportError.other 7), Except.ok (Response.tcp mrHeld)⟩

/-- Transport that always answers with a UDP mapping response. -/
def envUdp : Nat → Attempt :=
  fun _ => ⟨none, Except.ok (Response.udp mrOther)⟩

/-- Transport that always answers with the public-address response. -/
def envGw : Nat → Attempt :=
  fun _ => ⟨none, Except.ok (Response.gateway grOk)⟩

/-- Claim C1, evaluated against the code at a failing input.  The claim says
that in a renewal cycle whose verify-mode renewal query succeeds, no
fresh-acquisition query (internal=0, external=0) is performed.  In the code
the fallback is written `query_port(..., true).or(query_available_port(...))`
and `Result::or` takes a value, so its argument — the fresh-acquisition
query — is evaluated eagerly, in every cycle.  Here the renewal query
succeeds on its first attempt, the cycle's result is that renewal response,
and yet the cycle's trace contains the fresh-acquisition invocation
`callQueryPort 0 0 false`. -/
theorem c1_fresh_query_runs_despite_renewal_success :
    (query_port (envTcp mrHeld) mrHeld.private_port mrHeld.public_port true).1 =
      Except.ok mrHeld ∧
    Event.callQueryPort 0 0 false ∈
      (mainCycle (envTcp mrHeld) (envTcp mrOther) mrHeld).2 ∧
    (mainCycle (envTcp mrHeld) (envTcp mrOther) mrHeld).1 = Except.ok mrHeld := by
  refine ⟨?_, ?_, ?_⟩
  · rw [query_port_eval]; rfl
  · unfold mainCycle query_available_port
    rw [query_port_eval, query_port_eval]
    decide
  · unfold mainCycle query_available_port
    rw [query_port_eval, query_port_eval]
    rfl

/-- Claim C2 counterexample.  In end-to-end scenario 2 (two `TryAgain`
reads, then a matching TCP response) the mapping query does make exactly
three attempts and returns the mapping, but the waits are NOT one per
iteration: a `TryAgain` read triggers an additional
`thread::sleep(timeout)` (src/main.rs line 121), so the waits performed are
250, 250, 500, 500, 1000 ms — not 250, 500, 1000 ms as claimed. -/
theorem c2_counterexample_extra_wait_on_tryAgain :
    (query_port envScenario2 5000 40000 true).1 = Except.ok mrHeld ∧
    sendMapCount (query_port envScenario2 5000 40000 true).2 = 3 ∧
    waits (query_port envScenario2 5000 40000 true).2 = [250, 250, 500, 500, 1000] ∧
    waits (query_port envScenario2 5000 40000 true).2 ≠ [250, 500, 1000] := by
  refine ⟨?_, ?_, ?_, ?_⟩ <;> (rw [query_port_eval]; first | rfl | decide)

/-- Claim C2 as amended.  Every gateway-query iteration whose send succeeds
performs exactly one wait, of the current timeout, and it occurs between
invoking send and invoking read: the iteration's events are exactly
`[sendGatewayReq, wait t, readResp]`, followed by the remaining iterations'
events when (and only when) the read signalled `TryAgain`; an iteration
whose send fails aborts the gateway query before any wait; across a whole
gateway query the waits performed are an initial segment of the timeout
schedule.  Every mapping-query iteration performs its wait of the current
timeout between the send and the read; but an iteration whose read signals
`TryAgain` performs one additional wait of the current timeout after the
read.  Hence in scenario 2 (first two reads `TryAgain`, third a matching
TCP response) the mapping query makes exactly three attempts and waits
250, 250, 500, 500, 1000 ms before returning. -/
theorem c2_amended_wait_structure :
    (∀ env, ∃ rest, waits (query_gateway env).2 ++ rest = loopTimeouts 250) ∧
    (∀ env t ts i, (env i).sendErr = none →
      (env i).read = Except.error TransportError.tryAgain →
      (query_gateway_list env (t :: ts) i).2 =
        [Event.sendGatewayReq, Event.wait t, Event.readResp] ++
          (query_gateway_list env ts (i + 1)).2) ∧
    (∀ env t ts i, (env i).sendErr = none →
      (env i).read ≠ Except.error TransportError.tryAgain →
      (query_gateway_list env (t :: ts) i).2 =
        [Event.sendGatewayReq, Event.wait t, Event.readResp]) ∧
    (∀ env t ts i e, (env i).sendErr = some e →
      (query_gateway_list env (t :: ts) i).2 = [Event.sendGatewayReq]) ∧
    (∀ env a b (c : Bool) t ts i, (query_port_list env a b c (t :: ts) i).2.take 3 =
      [Event.sendMappingReq a b 360, Event.wait t, Event.readResp]) ∧
    (∀ env a b (c : Bool) t ts i,
      (env i).read = Except.error TransportError.tryAgain →
      (query_port_list env a b c (t :: ts) i).2.take 4 =
        [Event.sendMappingReq a b 360, Event.wait t, Event.readResp, Event.wait t]) ∧
    (query_port envScenario2 5000 40000 true).1 = Except.ok mrHeld ∧
    sendMapCount (query_port envScenario2 5000 40000 true).2 = 3 ∧
    waits (query_port envScenario2 5000 40000 true).2 = [250, 250, 500, 500, 1000] := by
  refine ⟨?_, ?_, ?_, ?_, ?_, ?_, ?_, ?_, ?_⟩
  · intro env
    exact waits_query_gateway_list env (loopTimeouts 250) 0
  · intro env t ts i hs hr
    rw [qgl_tryAgain env t ts i hs hr]
  · intro env t ts i hs hne
    cases hr : (env i).read with
    | error e =>
      cases e with
      | tryAgain => exact absurd hr hne
      | other code => rw [qgl_fatal env t ts i code hs hr]
    | ok r =>
      cases r with
      | tcp tr => rw [qgl_tcp env t ts i tr hs hr]
      | udp ur => rw [qgl_udp env t ts i ur hs hr]
      | gateway gr => rw [qgl_ok env t ts i gr hs hr]
  · intro env t ts i e hs
    rw [qgl_sendFail env t ts i e hs]
  · intro env a b c t ts i
    exact query_port_list_take3 env a b c t ts i
  · intro env a b c t ts i h
    rw [qpl_tryAgain env a b c t ts i h]
    simp
  · rw [query_port_eval]; rfl
  · rw [query_port_eval]; rfl
  · rw [query_port_eval]; rfl

/-- Witness for the amended C2: concrete instances of the gateway query's
send-wait-read iteration structure (a `TryAgain` iteration and a
terminating one), of the wait-free send-failure iteration, and of the
mapping query's `TryAgain` double wait. -/
theorem c2_amended_witness :
    (query_port_list envAllTryAgain 5000 40000 true [250] 0).2.take 4 =
      [Event.sendMappingReq 5000 40000 360, Event.wait 250, Event.readResp,
       Event.wait 250] ∧
    (query_gateway_list envAllTryAgain [250] 0).2 =
      [Event.sendGatewayReq, Event.wait 250, Event.readResp] ++
        (query_gateway_list envAllTryAgain [] 1).2 ∧
    (query_gateway_list envGw [250] 0).2 =
      [Event.sendGatewayReq, Event.wait 250, Event.readResp] ∧
    (query_gateway_list envSendFail [250] 0).2 = [Event.sendGatewayReq] :=
  ⟨c2_amended_wait_structure.2.2.2.2.2.1 envAllTryAgain 5000 40000 true 250 [] 0 rfl,
   c2_amended_wait_structure.2.1 envAllTryAgain 250 [] 0 rfl rfl,
   c2_amended_wait_structure.2.2.1 envGw 250 [] 0 rfl
     (fun h => Except.noConfusion h),
   c2_amended_wait_structure.2.2.2.1 envSendFail 250 [] 0
     (TransportError.other 7) rfl⟩

/-- Claim C3, evaluated against the code at a failing input.  The claim says
a fatal transport error from the send action aborts either query
immediately.  That is true of `query_gateway` (the `?` on line 64): its
trace stops at the send and the error is propagated.  But `query_port`
discards the send result (`let _ = ... .map_err(...)`, lines 110-111): with
the same always-failing send, it proceeds to wait and read, and here even
returns a mapping successfully. -/
theorem c3_send_error_ignored_in_query_port :
    (query_gateway envSendFail).1 =
      Except.error (QueryError.sendFailed (TransportError.other 7)) ∧
    (query_gateway envSendFail).2 = [Event.sendGatewayReq] ∧
    (query_port envSendFail 5000 40000 true).1 = Except.ok mrHeld ∧
    (query_port envSendFail 5000 40000 true).2 =
      [Event.callQueryPort 5000 40000 true, Event.sendMappingReq 5000 40000 360,
       Event.wait 250, Event.readResp] := by
  refine ⟨?_, ?_, ?_, ?_⟩
  · rw [query_gateway_eval]; rfl
  · rw [query_gateway_eval]; rfl
  · rw [query_port_eval]; rfl
  · rw [query_port_eval]; rfl

/-- Claim C4: the backoff schedule starts at 250 ms, strictly doubles each
iteration, never runs an iteration with a timeout above 64000 ms (64000
itself is the last allowed), so both queries perform at most 9 iterations;
and when no iteration ever yields a result (every read signals `TryAgain`)
the query fails with the exhaustion (`Timeout` / mapping-failed) error. -/
theorem c4_backoff_schedule_and_termination :
    loopTimeouts 250 = [250, 500, 1000, 2000, 4000, 8000, 16000, 32000, 64000] ∧
    List.Chain' (fun x y => y = 2 * x) (loopTimeouts 250) ∧
    (∀ t ∈ loopTimeouts 250, t ≤ 64000) ∧
    (loopTimeouts 250).getLast? = some 64000 ∧
    (∀ env a b (c : Bool), readCount (query_port env a b c).2 ≤ 9) ∧
    (∀ env, readCount (query_gateway env).2 ≤ 9) ∧
    (∀ env a b (c : Bool),
      (∀ j, (env j).read = Except.error TransportError.tryAgain) →
      (query_port env a b c).1 = Except.error QueryError.exhausted) ∧
    (∀ env, (∀ j, (env j).sendErr = none) →
      (∀ j, (env j).read = Except.error TransportError.tryAgain) →
      (query_gateway env).1 = Except.error QueryError.exhausted) := by
  refine ⟨loopTimeouts_250, ?_, ?_, ?_, ?_, ?_, ?_, ?_⟩
  · rw [loopTimeouts_250]; norm_num [List.chain'_cons]
  · rw [loopTimeouts_250]; decide
  · rw [loopTimeouts_250]; decide
  · intro env a b c
    have hshape : (query_port env a b c).2 =
        Event.callQueryPort a b c ::
          (query_port_list env a b c (loopTimeouts 250) 0).2 := rfl
    rw [hshape, readCount_cons_call]
    exact (readCount_query_port_list_le env a b c (loopTimeouts 250) 0).trans
      (by rw [loopTimeouts_250]; decide)
  · intro env
    exact (readCount_query_gateway_list_le env (loopTimeouts 250) 0).trans
      (by rw [loopTimeouts_250]; decide)
  · intro env a b c hta
    exact query_port_list_allTryAgain env a b c hta (loopTimeouts 250) 0
  · intro env hsend hta
    exact query_gateway_list_allTryAgain env hsend hta (loopTimeouts 250) 0

/-- Witness for C4: the all-`TryAgain` transport exhausts both queries. -/
theorem c4_witness :
    (query_port envAllTryAgain 5000 40000 true).1 =
      Except.error QueryError.exhausted ∧
    (query_gateway envAllTryAgain).1 = Except.error QueryError.exhausted :=
  ⟨c4_backoff_schedule_and_termination.2.2.2.2.2.2.1 envAllTryAgain 5000 40000
      true (fun _ => rfl),
   c4_backoff_schedule_and_termination.2.2.2.2.2.2.2 envAllTryAgain
      (fun _ => rfl) (fun _ => rfl)⟩

/-- Claim C5: with `verify = true` (renewal mode) a TCP mapping response is
returned iff its internal port, external port and (positive) lifetime match
the request; a non-matching TCP response is never returned and instead
consumes the current backoff iteration (one more read) and continues with
the next one. -/
theorem c5_verify_mode_filters_responses :
    (∀ env a b tr, (query_port env a b true).1 = Except.ok tr →
      tr.private_port = a ∧ tr.public_port = b ∧ 0 < as_secs tr.lifetime) ∧
    (∀ env a b t ts i tr, (env i).read = Except.ok (Response.tcp tr) →
      tr.private_port = a → tr.public_port = b → 0 < as_secs tr.lifetime →
      (query_port_list env a b true (t :: ts) i).1 = Except.ok tr) ∧
    (∀ env a b t ts i tr, (env i).read = Except.ok (Response.tcp tr) →
      ¬(tr.private_port = a ∧ tr.public_port = b ∧ 0 < as_secs tr.lifetime) →
      (query_port_list env a b true (t :: ts) i).1 =
        (query_port_list env a b true ts (i + 1)).1 ∧
      readCount (query_port_list env a b true (t :: ts) i).2 =
        readCount (query_port_list env a b true ts (i + 1)).2 + 1) := by
  refine ⟨?_, ?_, ?_⟩
  · intro env a b tr h
    exact query_port_list_check_sound env a b (loopTimeouts 250) 0 tr h
  · intro env a b t ts i tr h h1 h2 h3
    rw [qpl_tcp_accept env a b true t ts i tr h (Or.inr ⟨h1, h2, h3⟩)]
  · intro env a b t ts i tr h hm
    have hc : ¬((true : Bool) = false ∨ (tr.private_port = a ∧
        tr.public_port = b ∧ 0 < as_secs tr.lifetime)) := by
      intro hor
      rcases hor with hor | hor
      · exact absurd hor (by simp)
      · exact hm hor
    rw [qpl_tcp_reject env a b true t ts i tr h hc]
    refine ⟨rfl, ?_⟩
    show readCount ([Event.sendMappingReq a b 360, Event.wait t, Event.readResp] ++
      (query_port_list env a b true ts (i + 1)).2) =
      readCount (query_port_list env a b true ts (i + 1)).2 + 1
    rw [readCount_append, readCount_blkMap]
    omega

/-- Witness for C5: a matching response's fields are forced, and a
non-matching response (external 40001 instead of 40000) consumes the
iteration instead of being returned. -/
theorem c5_witness :
    (mrHeld.private_port = 5000 ∧ mrHeld.public_port = 40000 ∧
      0 < as_secs mrHeld.lifetime) ∧
    (query_port_list (envTcp mrOther) 5000 40000 true [250] 0).1 =
      (query_port_list (envTcp mrOther) 5000 40000 true [] 1).1 :=
  ⟨c5_verify_mode_filters_responses.1 (envTcp mrHeld) 5000 40000 mrHeld
      (by rw [query_port_eval]; rfl),
   (c5_verify_mode_filters_responses.2.2 (envTcp mrOther) 5000 40000 250 [] 0
      mrOther rfl (by decide)).1⟩

/-- Claim C6: a cycle that obtains a new mapping writes `"pid,port"` exactly
once with the new external port when it differs from the held mapping's
external port, and writes nothing when it is unchanged; startup writes
exactly once with the initial mapping's external port. -/
theorem c6_notifier_exactly_on_change :
    (∀ envR envF mr mr2, (mainCycle envR envF mr).1 = Except.ok mr2 →
      notifyPorts (mainCycle envR envF mr).2 =
        if mr.public_port ≠ mr2.public_port then [mr2.public_port] else []) ∧
    (∀ envG envF mr, (mainStartup envG envF).1 = Except.ok mr →
      notifyPorts (mainStartup envG envF).2 = [mr.public_port]) := by
  constructor
  · intro envR envF mr mr2 h
    unfold mainCycle cycleAfterQueries at h ⊢
    cases hor : resultOr (query_port envR mr.private_port mr.public_port true).1
        (query_available_port envF).1 with
    | error e =>
      simp only [hor] at h
      exact absurd h (by simp)
    | ok m =>
      simp only [hor] at h ⊢
      by_cases hp : mr.public_port ≠ m.public_port
      · rw [if_pos hp] at h ⊢
        simp at h
        subst h
        rw [if_pos hp]
        rw [notifyPorts_append, notifyPorts_cons_sleep, notifyPorts_append,
          notifyPorts_query_port, notifyPorts_query_available_port,
          notifyPorts_single_notify]
        simp
      · rw [if_neg hp] at h ⊢
        simp at h
        subst h
        rw [if_neg hp]
        rw [notifyPorts_cons_sleep, notifyPorts_append,
          notifyPorts_query_port, notifyPorts_query_available_port]
        simp
  · intro envG envF mr h
    unfold mainStartup startupAfterQueries at h ⊢
    cases hg : (query_gateway envG).1 with
    | error e =>
      simp only [hg] at h
      exact absurd h (by simp)
    | ok g0 =>
      simp only [hg] at h ⊢
      cases hq : (query_available_port envF).1 with
      | error e =>
        simp only [hq] at h
        exact absurd h (by simp)
      | ok m =>
        simp only [hq] at h ⊢
        simp at h
        subst h
        rw [notifyPorts_append, notifyPorts_append, notifyPorts_query_gateway,
          notifyPorts_query_available_port, notifyPorts_single_notify]
        simp

/-- Witness for C6: a cycle whose renewal fails and whose fallback obtains
external port 40005 (held: 40000), a cycle that re-obtains the identical
mapping, and a startup run. -/
theorem c6_witness :
    notifyPorts (mainCycle envAllTryAgain (envTcp mrNew) mrHeld).2 =
      (if mrHeld.public_port ≠ mrNew.public_port then [mrNew.public_port] else []) ∧
    notifyPorts (mainCycle (envTcp mrHeld) (envTcp mrOther) mrHeld).2 =
      (if mrHeld.public_port ≠ mrHeld.public_port then [mrHeld.public_port] else []) ∧
    notifyPorts (mainStartup envGw (envTcp mrZero)).2 = [mrZero.public_port] :=
  ⟨c6_notifier_exactly_on_change.1 envAllTryAgain (envTcp mrNew) mrHeld mrNew
      (by unfold mainCycle query_available_port
          rw [query_port_eval, query_port_eval]; rfl),
   c6_notifier_exactly_on_change.1 (envTcp mrHeld) (envTcp mrOther) mrHeld mrHeld
      (by unfold mainCycle query_available_port
          rw [query_port_eval, query_port_eval]; rfl),
   c6_notifier_exactly_on_change.2 envGw (envTcp mrZero) mrZero
      (by unfold mainStartup query_available_port
          rw [query_gateway_eval, query_port_eval]; rfl)⟩

/-- Claim C7: every cycle begins by sleeping for half the held mapping's
granted lifetime and then invokes the mapping query in verify mode with the
held mapping's internal and external ports. -/
theorem c7_sleep_half_lifetime_then_verify :
    ∀ envR envF mr, (mainCycle envR envF mr).2.take 2 =
      [Event.sleepDur (mr.lifetime / 2),
       Event.callQueryPort mr.private_port mr.public_port true] := by
  intro envR envF mr
  have hshape : (query_port envR mr.private_port mr.public_port true).2 =
      Event.callQueryPort mr.private_port mr.public_port true ::
        (query_port_list envR mr.private_port mr.public_port true
          (loopTimeouts 250) 0).2 := rfl
  unfold mainCycle cycleAfterQueries
  cases hor : resultOr (query_port envR mr.private_port mr.public_port true).1
      (query_available_port envF).1 with
  | error e =>
    simp only [hor]
    rw [hshape]
    simp
  | ok m =>
    simp only [hor]
    by_cases hp : mr.public_port ≠ m.public_port
    · rw [if_pos hp]
      rw [hshape]
      simp
    · rw [if_neg hp]
      rw [hshape]
      simp

/-- Claim C8: in both queries a `TryAgain` read never terminates the query —
the result is whatever the remaining iterations produce, and no query ever
fails with a `TryAgain`-carrying read failure — while any other read error
terminates the query immediately with that fatal failure. -/
theorem c8_tryAgain_continues_fatal_aborts :
    (∀ env a b (c : Bool) t ts i,
      (env i).read = Except.error TransportError.tryAgain →
      (query_port_list env a b c (t :: ts) i).1 =
        (query_port_list env a b c ts (i + 1)).1) ∧
    (∀ env t ts i, (env i).sendErr = none →
      (env i).read = Except.error TransportError.tryAgain →
      (query_gateway_list env (t :: ts) i).1 =
        (query_gateway_list env ts (i + 1)).1) ∧
    (∀ env a b (c : Bool) t ts i code,
      (env i).read = Except.error (TransportError.other code) →
      (query_port_list env a b c (t :: ts) i).1 =
        Except.error (QueryError.readFailed (TransportError.other code))) ∧
    (∀ env t ts i code, (env i).sendErr = none →
      (env i).read = Except.error (TransportError.other code) →
      (query_gateway_list env (t :: ts) i).1 =
        Except.error (QueryError.readFailed (TransportError.other code))) ∧
    (∀ env a b (c : Bool), (query_port env a b c).1 ≠
      Except.error (QueryError.readFailed TransportError.tryAgain)) ∧
    (∀ env, (query_gateway env).1 ≠
      Except.error (QueryError.readFailed TransportError.tryAgain)) := by
  refine ⟨?_, ?_, ?_, ?_, ?_, ?_⟩
  · intro env a b c t ts i h
    rw [qpl_tryAgain env a b c t ts i h]
  · intro env t ts i hs h
    rw [qgl_tryAgain env t ts i hs h]
  · intro env a b c t ts i code h
    rw [qpl_fatal env a b c t ts i code h]
  · intro env t ts i code hs h
    rw [qgl_fatal env t ts i code hs h]
  · intro env a b c
    exact query_port_list_no_tryAgain_failure env a b c (loopTimeouts 250) 0
  · intro env
    exact query_gateway_list_no_tryAgain_failure env (loopTimeouts 250) 0

/-- Witness for C8: a `TryAgain` read defers to the remaining iterations, a
fatal read error is returned immediately. -/
theorem c8_witness :
    (query_port_list envAllTryAgain 1 2 true [250] 0).1 =
      (query_port_list envAllTryAgain 1 2 true [] 1).1 ∧
    (query_port_list envFatal 1 2 true [250] 0).1 =
      Except.error (QueryError.readFailed (TransportError.other 3)) ∧
    (query_gateway_list envFatal [250] 0).1 =
      Except.error (QueryError.readFailed (TransportError.other 3)) :=
  ⟨c8_tryAgain_continues_fatal_aborts.1 envAllTryAgain 1 2 true 250 [] 0 rfl,
   c8_tryAgain_continues_fatal_aborts.2.2.1 envFatal 1 2 true 250 [] 0 3 rfl,
   c8_tryAgain_continues_fatal_aborts.2.2.2.1 envFatal 250 [] 0 3 rfl rfl⟩

/-- Claim C9: with `verify = false` (fresh-acquisition mode, internal=0,
external=0) any TCP mapping response read in the current iteration is
returned unconditionally, whatever its ports and lifetime. -/
theorem c9_fresh_mode_accepts_any_tcp :
    (∀ env t ts i tr, (env i).read = Except.ok (Response.tcp tr) →
      (query_port_list env 0 0 false (t :: ts) i).1 = Except.ok tr) ∧
    (∀ env tr, (env 0).read = Except.ok (Response.tcp tr) →
      (query_available_port env).1 = Except.ok tr) := by
  constructor
  · intro env t ts i tr h
    rw [qpl_tcp_accept env 0 0 false t ts i tr h (Or.inl rfl)]
  · intro env tr h
    show (query_port_list env 0 0 false (loopTimeouts 250) 0).1 = Except.ok tr
    rw [loopTimeouts_250]
    rw [qpl_tcp_accept env 0 0 false 250
      [500, 1000, 2000, 4000, 8000, 16000, 32000, 64000] 0 tr h (Or.inl rfl)]

/-- Witness for C9: a degenerate response (ports 7/9, lifetime 0) is still
accepted by the fresh-acquisition query. -/
theorem c9_witness :
    (query_available_port (envTcp mrZero)).1 = Except.ok mrZero :=
  c9_fresh_mode_accepts_any_tcp.2 (envTcp mrZero) mrZero rfl

/-- Claim C10: during a mapping query a UDP mapping response or a
public-address response never terminates the query and is never returned —
it consumes the current backoff iteration (one more read) and the loop
continues; any value the mapping query returns stems from a TCP mapping
response. -/
theorem c10_unexpected_response_consumes_iteration :
    (∀ env a b (c : Bool) t ts i ur,
      (env i).read = Except.ok (Response.udp ur) →
      (query_port_list env a b c (t :: ts) i).1 =
        (query_port_list env a b c ts (i + 1)).1 ∧
      readCount (query_port_list env a b c (t :: ts) i).2 =
        readCount (query_port_list env a b c ts (i + 1)).2 + 1) ∧
    (∀ env a b (c : Bool) t ts i gr,
      (env i).read = Except.ok (Response.gateway gr) →
      (query_port_list env a b c (t :: ts) i).1 =
        (query_port_list env a b c ts (i + 1)).1 ∧
      readCount (query_port_list env a b c (t :: ts) i).2 =
        readCount (query_port_list env a b c ts (i + 1)).2 + 1) ∧
    (∀ env a b (c : Bool) tr, (query_port env a b c).1 = Except.ok tr →
      ∃ j, (env j).read = Except.ok (Response.tcp tr)) := by
  refine ⟨?_, ?_, ?_⟩
  · intro env a b c t ts i ur h
    rw [qpl_udp env a b c t ts i ur h]
    refine ⟨rfl, ?_⟩
    show readCount ([Event.sendMappingReq a b 360, Event.wait t, Event.readResp] ++
      (query_port_list env a b c ts (i + 1)).2) =
      readCount (query_port_list env a b c ts (i + 1)).2 + 1
    rw [readCount_append, readCount_blkMap]
    omega
  · intro env a b c t ts i gr h
    rw [qpl_gw env a b c t ts i gr h]
    refine ⟨rfl, ?_⟩
    show readCount ([Event.sendMappingReq a b 360, Event.wait t, Event.readResp] ++
      (query_port_list env a b c ts (i + 1)).2) =
      readCount (query_port_list env a b c ts (i + 1)).2 + 1
    rw [readCount_append, readCount_blkMap]
    omega
  · intro env a b c tr h
    exact query_port_list_ok_from_tcp env a b c (loopTimeouts 250) 0 tr h

/-- Witness for C10: a UDP response and a public-address response each defer
to the remaining iterations, and a returned mapping is traced back to a TCP
response. -/
theorem c10_witness :
    (query_port_list envUdp 1 2 false [250] 0).1 =
      (query_port_list envUdp 1 2 false [] 1).1 ∧
    (query_port_list envGw 1 2 false [250] 0).1 =
      (query_port_list envGw 1 2 false [] 1).1 ∧
    ∃ j, ((envTcp mrZero) j).read = Except.ok (Response.tcp mrZero) :=
  ⟨(c10_unexpected_response_consumes_iteration.1 envUdp 1 2 false 250 [] 0
      mrOther rfl).1,
   (c10_unexpected_response_consumes_iteration.2.1 envGw 1 2 false 250 [] 0
      grOk rfl).1,
   c10_unexpected_response_consumes_iteration.2.2 (envTcp mrZero) 0 0 false
      mrZero (by rw [query_port_eval]; rfl)⟩
